import Mathlib

/-!
Shallow embedding of the Malicious-QR-Code-Scanner repository
(src/types.ts, src/services/geminiService.ts, src/components/Scanner.tsx,
src/App.tsx) together with theorems settling the frozen claims about it.

Conventions of the embedding:
* JavaScript numbers are modelled as rationals (ℚ); the claims never depend
  on floating-point rounding and every concrete value used below is exactly
  representable as a double.
* JSON values (results of JSON.parse / arguments of JSON.stringify) are an
  inductive `Json` type.
* A promise is modelled by its settlement behaviour: `Except` for code that
  can reject, `PromiseState` where "never settles" is an observable outcome.
* Browser callbacks (FileReader, Image, the animation-frame loop) are driven
  by explicit event values; the external jsQR library and the native
  BarcodeDetector are oracles supplied as inputs.
-/

namespace QRShield

/-- RiskLevel enumeration, from src/types.ts lines 2-6.  The TypeScript enum
values are the strings "Safe", "Suspicious", "Phishing". -/
inductive RiskLevel
| SAFE
| SUSPICIOUS
| PHISHING
deriving DecidableEq

/-- String value of a RiskLevel enum member (the value that JSON.stringify
writes for a ScanResult's risk field). -/
def RiskLevel.toJsString : RiskLevel → String
| .SAFE => "Safe"
| .SUSPICIOUS => "Suspicious"
| .PHISHING => "Phishing"

/-- Inverse of RiskLevel.toJsString: which enum member a persisted risk
string denotes (the three enum values are exactly these strings). -/
def riskOfString (s : String) : Option RiskLevel :=
  if s = "Safe" then some .SAFE
  else if s = "Suspicious" then some .SUSPICIOUS
  else if s = "Phishing" then some .PHISHING
  else none

/-- JSON values, as produced by JSON.parse and consumed by JSON.stringify.
Numbers are rationals (JSON.parse of valid JSON never yields NaN/Infinity). -/
inductive Json
| null
| bool (b : Bool)
| num (q : ℚ)
| str (s : String)
| arr (xs : List Json)
| obj (fields : List (String × Json))

/-- JavaScript property access data[k] on a parsed JSON value: a field of an
object, undefined (none) otherwise. -/
def Json.get : Json → String → Option Json
| .obj fields, k => fields.lookup k
| _, _ => none

/-- View of a JSON value as a string, as the typed ScanResult fields expect. -/
def Json.asString : Json → Option String
| .str s => some s
| _ => none

/-- View of a JSON value as a number. -/
def Json.asNum : Json → Option ℚ
| .num q => some q
| _ => none

/-- Traversal of a list under an option-valued function: all elements must
convert, in order. -/
def mapOption {α β : Type} (f : α → Option β) : List α → Option (List β)
| [] => some []
| a :: t =>
  match f a, mapOption f t with
  | some b, some l => some (b :: l)
  | _, _ => none

/-- View of a JSON value as an array of strings. -/
def Json.asStringList : Json → Option (List String)
| .arr xs => mapOption Json.asString xs
| _ => none

/-! Classification request, src/services/geminiService.ts (the module App.tsx
imports).  The awaited ai.models.generateContent call sits OUTSIDE the
try/catch (lines 9-48); only reading response.text, JSON.parse and the
normalization (lines 50-66) are inside the try. -/

/-- Outcome of the awaited generateContent call (geminiService.ts line 9).
reject: the promise rejects (network/service failure) - the await re-throws.
resolve body: the call fulfils; body is Except.error () when response.text
is missing or JSON.parse of the trimmed text throws (both raise inside the
try block), and Except.ok data when it parses to the JSON value data. -/
inductive GenContentOutcome
| reject
| resolve (body : Except Unit Json)

/-- Result shape returned by analyzeURL.  Mirroring the untyped spread
return { ...data, risk: normalizedRisk } (geminiService.ts lines 63-66),
confidence and reasons are whatever JSON fields the response carried
(none when the field is absent); only risk is normalized. -/
structure AnalysisResponse where
  risk : RiskLevel
  confidence : Option Json
  reasons : Option Json

/-- Fallback result built in the catch block, geminiService.ts lines 69-73. -/
def geminiFallback : AnalysisResponse :=
  { risk := .SUSPICIOUS
    confidence := some (Json.num (1/2))
    reasons := some (Json.arr [Json.str
      "Detailed AI analysis failed. Heuristic analysis suggests caution with unverified links."]) }

/-- Lookup in the riskMap object of geminiService.ts lines 55-59: keys are
the lowercase labels, values the enum members. -/
def riskMap (s : String) : Option RiskLevel :=
  if s = "safe" then some .SAFE
  else if s = "suspicious" then some .SUSPICIOUS
  else if s = "phishing" then some .PHISHING
  else none

/-- JavaScript String.prototype.toLowerCase as a per-character map; on the
ASCII range the risk labels live in, this is exactly what toLowerCase
does. -/
def jsToLower (s : String) : String := ⟨s.data.map Char.toLower⟩

/-- Normalization riskMap[data.risk.toLowerCase()] || RiskLevel.SUSPICIOUS
(geminiService.ts line 61); the enum values are non-empty strings, hence
truthy, so || is exactly getD. -/
def normalizeRisk (s : String) : RiskLevel :=
  (riskMap (jsToLower s)).getD .SUSPICIOUS

/-- Body of the try block, geminiService.ts lines 50-66, given the parsed
response body.  none means an exception was raised inside the try (text
missing / JSON.parse failed / data.risk absent or not a string, in which
case .toLowerCase() throws); the catch block then substitutes the fallback. -/
def tryBlock : Except Unit Json → Option AnalysisResponse
| .error _ => none
| .ok data =>
  match data.get "risk" with
  | some (Json.str s) =>
    some { risk := normalizeRisk s
           confidence := data.get "confidence"
           reasons := data.get "reasons" }
  | _ => none

/-- analyzeURL, geminiService.ts lines 5-75, as a function of the external
call's outcome.  A rejection of the awaited generateContent call happens
before the try block and therefore propagates (the returned promise
rejects); every fulfilled call produces a result, with the catch block
substituting the fallback when the try body throws. -/
def analyzeURL : GenContentOutcome → Except Unit AnalysisResponse
| .reject => .error ()
| .resolve body => .ok ((tryBlock body).getD geminiFallback)

/-- Result object built by handleScan, src/App.tsx line 54:
{ url: formattedUrl, ...analysis, timestamp: Date.now() }.  The analysis
fields are spread in unchanged (no validation or clamping). -/
structure RawScanResult where
  url : String
  risk : RiskLevel
  confidence : Option Json
  reasons : Option Json
  timestamp : ℚ

/-- Construction of the new result in handleScan (src/App.tsx lines 52-54). -/
def newResult (url : String) (analysis : AnalysisResponse) (now : ℚ) : RawScanResult :=
  { url := url
    risk := analysis.risk
    confidence := analysis.confidence
    reasons := analysis.reasons
    timestamp := now }

/-- ScanResult record, src/types.ts lines 8-14 (the typed data model: url,
risk, confidence, reasons, timestamp). -/
structure ScanResult where
  url : String
  risk : RiskLevel
  confidence : ℚ
  reasons : List String
  timestamp : ℚ
deriving DecidableEq

/-- JSON image of one ScanResult under JSON.stringify (field layout of the
object built at src/App.tsx line 54, persisted by line 42). -/
def encodeScanResult (r : ScanResult) : Json :=
  .obj [("url", .str r.url),
        ("risk", .str r.risk.toJsString),
        ("confidence", .num r.confidence),
        ("reasons", .arr (r.reasons.map .str)),
        ("timestamp", .num r.timestamp)]

/-- Reading one ScanResult back from the parsed persisted JSON (the load
effect, src/App.tsx lines 20-24, is a plain JSON.parse; this is the typed
view of the object it yields). -/
def decodeScanResult (j : Json) : Option ScanResult := do
  let u ← (j.get "url").bind Json.asString
  let rs ← (j.get "risk").bind Json.asString
  let risk ← riskOfString rs
  let c ← (j.get "confidence").bind Json.asNum
  let reasons ← (j.get "reasons").bind Json.asStringList
  let t ← (j.get "timestamp").bind Json.asNum
  pure { url := u, risk := risk, confidence := c, reasons := reasons, timestamp := t }

/-- Persisted history payload: JSON.stringify(history.slice(0, 10)),
src/App.tsx line 42. -/
def encodeHistory (h : List ScanResult) : Json :=
  .arr ((h.take 10).map encodeScanResult)

/-- Reading the persisted history list back. -/
def decodeHistory : Json → Option (List ScanResult)
| .arr xs => mapOption decodeScanResult xs
| _ => none

/-! Scan loop, src/components/Scanner.tsx lines 151-250 (the revision the
claims cite: BarcodeDetector tier, jsQR fallback, hasTriggered latch). -/

/-- A camera frame as the decode code observes it: its reported dimensions
and, abstractly, the RGBA byte buffer that drawImage-plus-getImageData
yields at a requested canvas size (browser resampling is external
behaviour, a datum of the frame). -/
structure Frame where
  videoWidth : ℕ
  videoHeight : ℕ
  resample : ℕ → ℕ → List ℕ

/-- inversionAttempts option accepted by jsQR. -/
inductive InversionMode
| dontInvert
| onlyInvert
| attemptBoth
| invertFirst
deriving DecidableEq

/-- Arguments of one jsQR invocation: pixel buffer, dimensions, inversion
option. -/
structure JsQRCall where
  data : List ℕ
  width : ℕ
  height : ℕ
  inversionAttempts : InversionMode
deriving DecidableEq

/-- Canvas dimension set at Scanner.tsx lines 213-214: video dimension times
scale = 0.8, truncated to an integer by the canvas width/height IDL
attribute. -/
def scaleDim (n : ℕ) : ℕ := n * 4 / 5

/-- The jsQR call the software fallback tier makes, Scanner.tsx lines
211-220: draw the frame at 0.8 scale, read the RGBA buffer back, pass it
to jsQR with inversionAttempts "dontInvert".  The buffer goes to jsQR
unmodified: no grayscale conversion and no thresholding happen. -/
def softwareDecodeCall (f : Frame) : JsQRCall :=
  let w := scaleDim f.videoWidth
  let h := scaleDim f.videoHeight
  { data := f.resample w h
    width := w
    height := h
    inversionAttempts := .dontInvert }

/-- Modelled from the spec: fixed processing width of the preprocessing
pipeline the spec describes for the software fallback (no such constant
exists in the code; used only for comparison). -/
def specProcessingWidth : ℕ := 480

/-- Modelled from the spec: grayscale conversion by per-pixel channel
averaging over an RGBA buffer (absent from the code; for comparison). -/
def specGrayscale : List ℕ → List ℕ
| r :: g :: b :: _ :: rest => (r + g + b) / 3 :: specGrayscale rest
| _ => []

/-- Modelled from the spec: fixed binary luminance threshold at the midpoint
120 of 255 (absent from the code; for comparison). -/
def specThreshold (gray : List ℕ) : List ℕ :=
  gray.map fun v => if 120 ≤ v then 255 else 0

/-- Modelled from the spec: the software-fallback jsQR call the spec
describes - downscale to the fixed 480-px processing width preserving
aspect ratio, grayscale by channel averaging, binary threshold, jsQR with
both polarities.  Used only to compare with softwareDecodeCall. -/
def specSoftwareDecodeCall (f : Frame) : JsQRCall :=
  let w := specProcessingWidth
  let h := f.videoHeight * specProcessingWidth / f.videoWidth
  { data := specThreshold (specGrayscale (f.resample w h))
    width := w
    height := h
    inversionAttempts := .attemptBoth }

/-- Environment one tick invocation observes (Scanner.tsx lines 186-229):
whether the video has enough data, whether the BarcodeDetector capability
exists, what its detect() call does on this frame (reject, or fulfil with
the list of rawValue strings), whether the canvas 2d context is available,
and the current frame. -/
structure TickInput where
  ready : Bool
  nativeAvailable : Bool
  nativeOutcome : Except Unit (List String)
  canvasAvailable : Bool
  frame : Frame

/-- What a tick invocation does at its end: deliver a decoded payload to
handleSuccess and stop (success), schedule the next animation frame
(reschedule), or return at once because the latch was already set (halt). -/
inductive TickEvent
| success (data : String)
| reschedule
| halt
deriving DecidableEq

/-- Observable behaviour of one tick invocation: which decode tiers ran and
its final event. -/
structure TickResult where
  ranNative : Bool
  ranSoftware : Bool
  event : TickEvent
deriving DecidableEq

/-- A tick attempted a decode when either tier actually ran. -/
def TickResult.attemptedDecode (r : TickResult) : Bool :=
  r.ranNative || r.ranSoftware

/-- One tick of the scan loop, Scanner.tsx lines 186-229, parametrized by
the pure jsQR library (an oracle from call arguments to the decoded
payload, none when jsQR returns null) and the hasTriggered latch read at
entry.  JavaScript is single threaded and the next frame is only scheduled
when the current tick finishes, so one tick runs to completion against one
latch value.  Structure of the code: early return on the latch (line 187);
readyState gate (line 189); native tier inside try/catch whose catch falls
through (lines 193-204), using the first barcode when detect yields any;
jsQR tier over the scaled canvas buffer (lines 206-226) guarded by
code && code.data, so an empty payload string does not trigger success;
otherwise reschedule (line 228). -/
def tick (jsqr : JsQRCall → Option String) (hasTriggered : Bool) (i : TickInput) : TickResult :=
  if hasTriggered then
    { ranNative := false, ranSoftware := false, event := .halt }
  else if i.ready then
    let nativeHit : Option String :=
      if i.nativeAvailable then
        match i.nativeOutcome with
        | .ok (b :: _) => some b
        | _ => none
      else none
    match nativeHit with
    | some b => { ranNative := true, ranSoftware := false, event := .success b }
    | none =>
      if i.canvasAvailable then
        match jsqr (softwareDecodeCall i.frame) with
        | some d =>
          if d = "" then
            { ranNative := i.nativeAvailable, ranSoftware := true, event := .reschedule }
          else
            { ranNative := i.nativeAvailable, ranSoftware := true, event := .success d }
        | none =>
          { ranNative := i.nativeAvailable, ranSoftware := true, event := .reschedule }
      else
        { ranNative := i.nativeAvailable, ranSoftware := false, event := .reschedule }
  else
    { ranNative := false, ranSoftware := false, event := .reschedule }

/-- Session state: the hasTriggered latch (Scanner.tsx line 159) and the
number of decoded payloads handed to the caller's onScan. -/
structure SessionState where
  hasTriggered : Bool
  emitted : ℕ
deriving DecidableEq

/-- State at session start. -/
def initSession : SessionState := { hasTriggered := false, emitted := 0 }

/-- handleSuccess, Scanner.tsx lines 231-240: re-check the latch, set it,
and deliver the payload to onScan (after the fixed 600 ms visual delay).
The check and the set happen with no suspension point between them, so the
pair is atomic in the single-threaded runtime. -/
def handleSuccess (s : SessionState) : SessionState :=
  if s.hasTriggered then s
  else { hasTriggered := true, emitted := s.emitted + 1 }

/-- One tick together with its effect on the session state: a success event
routes the payload through handleSuccess. -/
def stepTick (jsqr : JsQRCall → Option String) (s : SessionState) (i : TickInput) :
    SessionState × TickResult :=
  let r := tick jsqr s.hasTriggered i
  match r.event with
  | .success _ => (handleSuccess s, r)
  | _ => (s, r)

/-- Sequential run of the scan loop over a list of tick environments
(ticks are strictly sequential: requestAnimationFrame schedules the next
tick only after the current one finishes). -/
def runSession (jsqr : JsQRCall → Option String) (s : SessionState) :
    List TickInput → SessionState × List TickResult
| [] => (s, [])
| i :: rest =>
  let p := stepTick jsqr s i
  let q := runSession jsqr p.1 rest
  (q.1, p.2 :: q.2)

/-- Run of the scan loop with a wall-clock timestamp attached to every tick.
The code's tick reads no clock, so the timestamps are simply discarded. -/
def runTimedSession (jsqr : JsQRCall → Option String) (s : SessionState)
    (inputs : List (ℚ × TickInput)) : SessionState × List TickResult :=
  runSession jsqr s (inputs.map Prod.snd)

/-! Upload path: decodeQRCodeFromImage (the utility file, src/types.ts
lines 26-53 of the concatenated sources) and handleFileUpload
(src/App.tsx lines 72-88). -/

/-- Outcome of the single jsQR call the upload decoder makes on the drawn
image: none when jsQR returns null, some d when it returns a code object
with code.data = d. -/
structure DecodeContext where
  jsqrResult : Option String

/-- What the Image element does after the FileReader delivered a data URL:
fail to load (its error event has no handler installed), or load with the
canvas 2d context either unavailable or available with a jsQR outcome. -/
inductive ImageEvent
| loadError
| loaded (ctx : Option DecodeContext)

/-- What the FileReader does with the file: fail (its error event has no
handler installed) or deliver the data URL to onload. -/
inductive FileEvent
| readError
| readLoad (img : ImageEvent)

/-- Settlement behaviour of a promise: never settles, fulfils, or rejects. -/
inductive PromiseState (α : Type)
| pending
| resolved (v : α)
| rejected
deriving DecidableEq

/-- decodeQRCodeFromImage as a function of the file/image events.  The
promise executor only ever calls resolve: resolve(null) when the context
is unavailable or jsQR finds nothing, resolve(code.data) on a hit; the
FileReader and Image error events have no handlers, so on either failure
nothing runs and the promise never settles. -/
def decodeQRCodeFromImage : FileEvent → PromiseState (Option String)
| .readError => .pending
| .readLoad .loadError => .pending
| .readLoad (.loaded none) => .resolved none
| .readLoad (.loaded (some ctx)) =>
  match ctx.jsqrResult with
  | some d => .resolved (some d)
  | none => .resolved none

/-- Outcome of handleFileUpload as the user observes it. -/
inductive UploadOutcome
| noFile
| scanned (url : String)
| noPattern
| fileError
| stuck
deriving DecidableEq

/-- handleFileUpload, src/App.tsx lines 72-88, as a function of the selected
file's events.  The await of the decoder adopts the promise's settlement:
a payload url enters handleScan when truthy (empty string is falsy and
counts as no pattern), resolve(null) shows the no-readable-pattern
message, a rejection would reach the catch branch (fileError), and a
pending promise leaves the handler suspended forever (stuck). -/
def handleFileUpload : Option FileEvent → UploadOutcome
| none => .noFile
| some ev =>
  match decodeQRCodeFromImage ev with
  | .pending => .stuck
  | .rejected => .fileError
  | .resolved (some url) => if url = "" then .noPattern else .scanned url
  | .resolved none => .noPattern

/-! Concrete inputs used by witnesses and counterexamples. -/

/-- A jsQR oracle that finds no code in any buffer. -/
def jsqrNone : JsQRCall → Option String := fun _ => none

/-- A concrete 1280 by 720 frame whose resampled buffer is a single mid-gray
RGBA pixel. -/
def demoFrame : Frame :=
  { videoWidth := 1280, videoHeight := 720, resample := fun _ _ => [200, 200, 200, 255] }

/-- Tick environment: video ready, no native detector, canvas available. -/
def throttleInput : TickInput :=
  { ready := true, nativeAvailable := false, nativeOutcome := .ok []
    canvasAvailable := true, frame := demoFrame }

/-- Tick environment: video ready, native detector present but its detect
call rejects, canvas available. -/
def nativeErrInput : TickInput :=
  { ready := true, nativeAvailable := true, nativeOutcome := .error ()
    canvasAvailable := true, frame := demoFrame }

/-- A well-formed service reply whose confidence value 1.5 lies outside the
0 to 1 range the schema description asks for. -/
def overConfidentBody : Json :=
  .obj [("risk", .str "Safe"), ("confidence", .num (3/2)), ("reasons", .arr [.str "x"])]

/-- A concrete ScanResult. -/
def demoResult : ScanResult :=
  { url := "https://example.com", risk := .SAFE, confidence := 92/100
    reasons := ["ok"], timestamp := 1700000000000 }

/-! Theorems.  Claim C1. -/

/-- C1, counterexample: the claim says analyzeURL never rejects, in
particular not on a network failure of the external call; but the awaited
generateContent call sits before the try block, so its rejection
propagates to analyzeURL's caller (which is why handleScan in App.tsx
wraps the call in its own try/catch). -/
theorem c1_counterexample : analyzeURL .reject = .error () := rfl

/-- C1 amended: only once the external call has fulfilled is every failure
(missing response text, JSON parse failure, missing or non-string risk
label) absorbed, yielding the fallback result with risk Suspicious,
confidence 0.5 and a single non-empty explanatory reason; a rejection of
the generateContent call itself propagates to the caller. -/
theorem c1_fulfilled_fallback (body : Except Unit Json) (h : tryBlock body = none) :
    analyzeURL (.resolve body) = .ok geminiFallback ∧
    (∀ b, ∃ r, analyzeURL (.resolve b) = .ok r) ∧
    geminiFallback.risk = .SUSPICIOUS ∧
    geminiFallback.confidence = some (Json.num (1/2)) ∧
    ∃ s, geminiFallback.reasons = some (Json.arr [Json.str s]) ∧ s ≠ "" := by
  refine ⟨by simp [analyzeURL, h], fun b => ⟨_, rfl⟩, rfl, rfl, ?_⟩
  exact ⟨_, rfl, by decide⟩

/-- C1 witness: the amended theorem at the concrete body of a malformed
(unparsable) fulfilled response. -/
theorem c1_witness : analyzeURL (.resolve (.error ())) = .ok geminiFallback :=
  (c1_fulfilled_fallback (.error ()) rfl).1

/-! Claim C2. -/

/-- C2: the risk label is normalized case-insensitively (the result depends
only on the lowercased label, the three labels map to their enum values in
any letter case), any other label normalizes to Suspicious, Safe is only
ever produced for the label safe (in some letter case), and a missing
label makes the try block throw, so the catch substitutes the fallback
whose risk is Suspicious. -/
theorem c2_risk_normalization :
    (∀ s t, jsToLower s = jsToLower t → normalizeRisk s = normalizeRisk t) ∧
    (normalizeRisk "Safe" = .SAFE ∧ normalizeRisk "SAFE" = .SAFE ∧
     normalizeRisk "Suspicious" = .SUSPICIOUS ∧ normalizeRisk "Phishing" = .PHISHING ∧
     normalizeRisk "pHiShInG" = .PHISHING) ∧
    (∀ s, jsToLower s ≠ "safe" → jsToLower s ≠ "suspicious" → jsToLower s ≠ "phishing" →
      normalizeRisk s = .SUSPICIOUS) ∧
    (∀ s, normalizeRisk s = .SAFE → jsToLower s = "safe") ∧
    (∀ data, data.get "risk" = none →
      analyzeURL (.resolve (.ok data)) = .ok geminiFallback ∧ geminiFallback.risk = .SUSPICIOUS) := by
  refine ⟨?_, ⟨by decide, by decide, by decide, by decide, by decide⟩, ?_, ?_, ?_⟩
  · intro s t h
    unfold normalizeRisk
    rw [h]
  · intro s h1 h2 h3
    simp [normalizeRisk, riskMap, h1, h2, h3]
  · intro s h
    by_cases h1 : jsToLower s = "safe"
    · exact h1
    by_cases h2 : jsToLower s = "suspicious"
    · simp [normalizeRisk, riskMap, h1, h2] at h
    by_cases h3 : jsToLower s = "phishing"
    · simp [normalizeRisk, riskMap, h1, h2, h3] at h
    · simp [normalizeRisk, riskMap, h1, h2, h3] at h
  · intro data h
    refine ⟨?_, rfl⟩
    simp [analyzeURL, tryBlock, h]

/-- C2 witness: the normalization theorem at concrete labels. -/
theorem c2_witness :
    normalizeRisk "WeIrD-Label" = .SUSPICIOUS ∧ normalizeRisk "SAFE" = .SAFE :=
  ⟨c2_risk_normalization.2.2.1 "WeIrD-Label" (by decide) (by decide) (by decide),
   c2_risk_normalization.2.1.2.1⟩

/-! Claim C3. -/

/-- Helper: one step of the loop preserves the session invariant (no
emission before the latch is set, and at most one emission ever). -/
theorem stepTick_emitted_inv (jsqr : JsQRCall → Option String) (s : SessionState)
    (i : TickInput) (h0 : s.hasTriggered = false → s.emitted = 0) (h1 : s.emitted ≤ 1) :
    ((stepTick jsqr s i).1.hasTriggered = false → (stepTick jsqr s i).1.emitted = 0) ∧
    (stepTick jsqr s i).1.emitted ≤ 1 := by
  unfold stepTick
  rcases he : (tick jsqr s.hasTriggered i).event with d | _ | _
  · simp only [he]
    unfold handleSuccess
    by_cases ht : s.hasTriggered = true
    · simp [ht, h0, h1]
    · have h2 : s.emitted = 0 := h0 (by simpa using ht)
      simp [if_neg ht, h2]
  · simpa [he] using ⟨h0, h1⟩
  · simpa [he] using ⟨h0, h1⟩

/-- Helper: the session invariant propagates along any run of the loop. -/
theorem runSession_emitted_le (jsqr : JsQRCall → Option String) (inputs : List TickInput) :
    ∀ s : SessionState, (s.hasTriggered = false → s.emitted = 0) → s.emitted ≤ 1 →
      (runSession jsqr s inputs).1.emitted ≤ 1 := by
  induction inputs with
  | nil => intro s h0 h1; simpa [runSession] using h1
  | cons i rest ih =>
    intro s h0 h1
    have h := stepTick_emitted_inv jsqr s i h0 h1
    simpa [runSession] using ih _ h.1 h.2

/-- C3: a scanning session delivers at most one success to onScan over any
sequence of sequential ticks, whatever the detector and jsQR oracles do;
once the hasTriggered latch is set, a tick returns at once with neither
decode tier running; and handleSuccess re-checks the latch before
delivering, so a second call with the latch set changes nothing. -/
theorem c3_one_shot :
    (∀ (jsqr : JsQRCall → Option String) (inputs : List TickInput),
      (runSession jsqr initSession inputs).1.emitted ≤ 1) ∧
    (∀ (jsqr : JsQRCall → Option String) (i : TickInput),
      tick jsqr true i = { ranNative := false, ranSoftware := false, event := .halt }) ∧
    (∀ e, handleSuccess { hasTriggered := true, emitted := e }
      = { hasTriggered := true, emitted := e }) :=
  ⟨fun jsqr inputs =>
    runSession_emitted_le jsqr inputs initSession (fun _ => rfl) (by decide),
   fun _ _ => rfl, fun _ => rfl⟩

/-! Claim C4. -/

/-- C4, counterexample: the claim says a tick arriving less than the 150 ms
throttle interval after the previous one performs no decode attempt; but
the code has no throttle at all - in a run with two ticks 50 ms apart
(and no code found), both ticks attempt a decode. -/
theorem c4_counterexample :
    ((50 : ℚ) - 0 < 150) ∧
    (runTimedSession jsqrNone initSession
        [(0, throttleInput), (50, throttleInput)]).2.map TickResult.attemptedDecode
      = [true, true] := by
  exact ⟨by norm_num, rfl⟩

/-- C4 amended: the tick path contains no time-based throttling and no
in-flight flag - whenever the latch is unset and the video has enough
data, the tick attempts a decode (native when the capability exists,
software when the canvas context exists), regardless of the elapsed time
since the previous tick, which the code never even reads (the timed run
just discards the timestamps); overlapping decode attempts are impossible
only because the next frame is scheduled after the current tick finishes. -/
theorem c4_no_throttle (jsqr : JsQRCall → Option String) (i : TickInput)
    (h1 : i.ready = true) :
    (tick jsqr false i).attemptedDecode = (i.nativeAvailable || i.canvasAvailable) ∧
    (∀ (s : SessionState) (inputs : List (ℚ × TickInput)),
      runTimedSession jsqr s inputs = runSession jsqr s (inputs.map Prod.snd)) := by
  refine ⟨?_, fun s inputs => rfl⟩
  rcases i with ⟨rd, na, no, ca, fr⟩
  obtain rfl : rd = true := h1
  rcases no with e | (_ | ⟨b, bs⟩) <;> cases na <;> cases ca <;>
    rcases hj : jsqr (softwareDecodeCall fr) with _ | d <;>
      simp [tick, TickResult.attemptedDecode, hj] <;>
        (try split) <;> simp_all

/-- C4 witness: the amended theorem at the concrete no-detector,
canvas-available tick environment. -/
theorem c4_witness :
    (tick jsqrNone false throttleInput).attemptedDecode
      = (throttleInput.nativeAvailable || throttleInput.canvasAvailable) :=
  (c4_no_throttle jsqrNone throttleInput rfl).1

/-! Claim C5. -/

/-- C5, counterexample: the claim describes a 480-px fixed processing width,
grayscale conversion, binary thresholding at 120, and both-polarity
inversion attempts; the code's software tier does none of this.  On a
concrete 1280 by 720 frame the call it hands to jsQR uses width 1024 (the
fixed 0.8 scale, not 480), passes the raw RGBA buffer through unmodified
(a mid-gray byte 200 is still 200, not 0 or 255), uses dontInvert rather
than both polarities, and differs from the pipeline the claim describes. -/
theorem c5_counterexample :
    softwareDecodeCall demoFrame ≠ specSoftwareDecodeCall demoFrame ∧
    (softwareDecodeCall demoFrame).width = 1024 ∧ (1024 : ℕ) ≠ 480 ∧
    (softwareDecodeCall demoFrame).inversionAttempts = .dontInvert ∧
    InversionMode.dontInvert ≠ .attemptBoth ∧
    (softwareDecodeCall demoFrame).data = [200, 200, 200, 255] ∧
    ¬ (∀ v ∈ (softwareDecodeCall demoFrame).data, v = 0 ∨ v = 255) := by
  decide

/-- C5 amended: the software fallback scales both frame dimensions by the
fixed factor 0.8 (truncating to integers, hence preserving aspect ratio up
to rounding), reads the resampled RGBA buffer back and passes it to jsQR
unmodified - no grayscale conversion, no thresholding - with
inversionAttempts set to dontInvert. -/
theorem c5_software_call (f : Frame) :
    softwareDecodeCall f =
      { data := f.resample (scaleDim f.videoWidth) (scaleDim f.videoHeight)
        width := scaleDim f.videoWidth
        height := scaleDim f.videoHeight
        inversionAttempts := .dontInvert } ∧
    (∀ n, scaleDim n = n * 4 / 5) :=
  ⟨rfl, fun _ => rfl⟩

/-! Claim C6. -/

/-- C6: on a tick where the native detector capability exists but its detect
call rejects, the software jsQR fallback still runs on that same tick
(provided the canvas context exists, which is the code's normal state),
and the tick ends in a success or a reschedule - the exception is absorbed
by the empty catch and never terminates the loop. -/
theorem c6_native_error_fallback (jsqr : JsQRCall → Option String) (i : TickInput)
    (h1 : i.ready = true) (h2 : i.nativeAvailable = true)
    (h3 : i.nativeOutcome = .error ()) (h4 : i.canvasAvailable = true) :
    (tick jsqr false i).ranSoftware = true ∧
    ((tick jsqr false i).event = .reschedule ∨
      ∃ d, (tick jsqr false i).event = .success d) := by
  rcases i with ⟨rd, na, no, ca, fr⟩
  obtain rfl : rd = true := h1
  obtain rfl : na = true := h2
  obtain rfl : no = Except.error () := h3
  obtain rfl : ca = true := h4
  rcases hj : jsqr (softwareDecodeCall fr) with _ | d
  · simp [tick, hj]
  · by_cases hd : d = "" <;> simp [tick, hj, hd]

/-- C6 witness: the theorem at the concrete throwing-detector environment
with a jsQR oracle that finds nothing. -/
theorem c6_witness :
    (tick jsqrNone false nativeErrInput).ranSoftware = true ∧
    ((tick jsqrNone false nativeErrInput).event = .reschedule ∨
      ∃ d, (tick jsqrNone false nativeErrInput).event = .success d) :=
  c6_native_error_fallback jsqrNone nativeErrInput rfl rfl rfl rfl

/-! Claims C7 and C10 share the unreachable-catch fact. -/

/-- Helper: the catch branch of handleFileUpload (the file-processing-error
message) is unreachable - the decoder's promise never rejects, so no
selected file ever produces the fileError outcome. -/
theorem upload_fileError_unreachable (ev : FileEvent) :
    handleFileUpload (some ev) ≠ .fileError := by
  rcases ev with _ | img
  · simp [handleFileUpload, decodeQRCodeFromImage]
  · rcases img with _ | ⟨_ | ⟨c⟩⟩
    · simp [handleFileUpload, decodeQRCodeFromImage]
    · simp [handleFileUpload, decodeQRCodeFromImage]
    · rcases hc : c.jsqrResult with _ | d
      · simp [handleFileUpload, decodeQRCodeFromImage, hc]
      · by_cases hd : d = "" <;> simp [handleFileUpload, decodeQRCodeFromImage, hc, hd]

/-- C7, counterexample: the claim says a file I/O error is reported as a
separate file-processing failure; but the FileReader error event has no
handler, so on a read failure the decoder's promise never settles, the
awaiting handler stays suspended, and the file-processing-failure message
is never shown. -/
theorem c7_counterexample :
    decodeQRCodeFromImage .readError = .pending ∧
    handleFileUpload (some .readError) = .stuck ∧
    UploadOutcome.stuck ≠ .fileError := by
  exact ⟨rfl, rfl, by decide⟩

/-- C7 amended: when the image loads and jsQR finds no pattern, the decoder
throws no error and resolves with null, and the caller reports the
no-readable-pattern message; the caller's separate file-processing-failure
branch exists and is distinct, but a file I/O error leaves the promise
pending, so that branch is never actually reached. -/
theorem c7_no_pattern (ctx : DecodeContext) (h : ctx.jsqrResult = none) :
    decodeQRCodeFromImage (.readLoad (.loaded (some ctx))) = .resolved none ∧
    handleFileUpload (some (.readLoad (.loaded (some ctx)))) = .noPattern ∧
    UploadOutcome.noPattern ≠ .fileError ∧
    (∀ ev, handleFileUpload (some ev) ≠ .fileError) := by
  refine ⟨?_, ?_, by decide, upload_fileError_unreachable⟩
  · simp [decodeQRCodeFromImage, h]
  · simp [handleFileUpload, decodeQRCodeFromImage, h]

/-- C7 witness: the amended theorem at a concrete context in which jsQR
returns null. -/
theorem c7_witness :
    decodeQRCodeFromImage (.readLoad (.loaded (some ⟨none⟩))) = .resolved none ∧
    handleFileUpload (some (.readLoad (.loaded (some ⟨none⟩)))) = .noPattern :=
  ⟨(c7_no_pattern ⟨none⟩ rfl).1, (c7_no_pattern ⟨none⟩ rfl).2.1⟩

/-! Claim C8. -/

/-- C8, counterexample: the claim says every constructed result has
confidence in the closed interval 0 to 1 whatever numeric value the
service returns; but the service value is spread into the result
unvalidated, so a reply with confidence 1.5 yields an analysis - and then
a stored result - whose confidence is 1.5, outside the interval. -/
theorem c8_counterexample :
    (∃ a, analyzeURL (.resolve (.ok overConfidentBody)) = .ok a ∧
      a.risk = .SAFE ∧ a.confidence = some (Json.num (3/2)) ∧
      (newResult "https://example.com" a 0).confidence = some (Json.num (3/2))) ∧
    ¬ ((3 : ℚ)/2 ≤ 1) := by
  exact ⟨⟨_, rfl, rfl, rfl, rfl⟩, by norm_num⟩

/-- C8 amended: the confidence field is copied through unvalidated - the
analysis carries exactly the confidence field of the parsed reply, and the
result handleScan builds carries exactly the analysis's confidence - so it
lies in the 0 to 1 interval exactly when the service's value does; on the
fallback path it is the literal 0.5, which does lie in the interval. -/
theorem c8_confidence_passthrough (data : Json) (r : AnalysisResponse)
    (h : tryBlock (.ok data) = some r) :
    r.confidence = data.get "confidence" ∧
    (geminiFallback.confidence = some (Json.num (1/2)) ∧
      (0 : ℚ) ≤ 1/2 ∧ (1 : ℚ)/2 ≤ 1) ∧
    (∀ url a now, (newResult url a now).confidence = a.confidence) := by
  refine ⟨?_, ⟨rfl, by norm_num, by norm_num⟩, fun _ _ _ => rfl⟩
  rcases hg : data.get "risk" with _ | j
  · simp [tryBlock, hg] at h
  · rcases j with _ | b | q | s | xs | fs <;> simp [tryBlock, hg] at h
    exact h.symm ▸ rfl

/-- C8 witness: the amended theorem at the concrete over-confident reply. -/
theorem c8_witness :
    ({ risk := .SAFE, confidence := some (Json.num (3/2)),
       reasons := some (Json.arr [Json.str "x"]) } : AnalysisResponse).confidence
      = overConfidentBody.get "confidence" :=
  (c8_confidence_passthrough overConfidentBody _ rfl).1

/-! Claim C9. -/

/-- Helper: reading back an array of string values yields the original
strings. -/
theorem mapOption_asString_map_str (l : List String) :
    mapOption Json.asString (l.map Json.str) = some l := by
  induction l with
  | nil => rfl
  | cons a t ih => simp [mapOption, ih, Json.asString]

/-- Helper: the three enum value strings decode back to their members. -/
theorem riskOfString_toJsString (v : RiskLevel) : riskOfString v.toJsString = some v := by
  cases v <;> rfl

/-- Helper: one ScanResult survives the stringify-then-parse round trip with
all five fields intact. -/
theorem decode_encode (r : ScanResult) : decodeScanResult (encodeScanResult r) = some r := by
  rcases r with ⟨u, risk, c, rs, t⟩
  simp [decodeScanResult, encodeScanResult, Json.get, Json.asString, Json.asNum,
        Json.asStringList, List.lookup, riskOfString_toJsString, mapOption_asString_map_str]

/-- Helper: a list of encoded results decodes back element-wise. -/
theorem mapOption_decode_encode (l : List ScanResult) :
    mapOption decodeScanResult (l.map encodeScanResult) = some l := by
  induction l with
  | nil => rfl
  | cons a t ih => simp [mapOption, decode_encode, ih]

/-- C9: every ScanResult serialized through the persisted-history format
(JSON stringify of the history list, slice of the first ten) and
deserialized back reproduces identical url, risk, confidence, reasons and
timestamp; a whole history of at most ten entries round-trips as a list. -/
theorem c9_roundtrip :
    (∀ r : ScanResult, decodeScanResult (encodeScanResult r) = some r) ∧
    (∀ h : List ScanResult, h.length ≤ 10 →
      decodeHistory (encodeHistory h) = some h) := by
  refine ⟨decode_encode, fun h hlen => ?_⟩
  have ht : h.take 10 = h := List.take_of_length_le hlen
  simp [decodeHistory, encodeHistory, ht, mapOption_decode_encode]

/-- C9 witness: the round trip at a concrete one-element history. -/
theorem c9_witness :
    List.length [demoResult] ≤ 10 ∧
    decodeHistory (encodeHistory [demoResult]) = some [demoResult] :=
  ⟨by decide, c9_roundtrip.2 [demoResult] (by decide)⟩

/-! Claim C10. -/

/-- C10: the upload decoder's promise never rejects - every settled outcome
is a payload string or null - so the caller's catch branch is unreachable
from the decoder, and a file-read or image-load failure leaves the promise
unsettled (the handler stays suspended) rather than producing an error. -/
theorem c10_decoder_never_rejects :
    (∀ ev, decodeQRCodeFromImage ev ≠ .rejected) ∧
    (∀ ev, handleFileUpload (some ev) ≠ .fileError) ∧
    decodeQRCodeFromImage .readError = .pending ∧
    decodeQRCodeFromImage (.readLoad .loadError) = .pending := by
  refine ⟨?_, upload_fileError_unreachable, rfl, rfl⟩
  intro ev
  rcases ev with _ | img
  · simp [decodeQRCodeFromImage]
  · rcases img with _ | ⟨_ | ⟨c⟩⟩
    · simp [decodeQRCodeFromImage]
    · simp [decodeQRCodeFromImage]
    · rcases hc : c.jsqrResult with _ | d <;> simp [decodeQRCodeFromImage, hc]

end QRShield
